import Mathlib

/-!
Verification of the remote-store client (src/libstore/remote-store.cc) against
its specification.  The C++ functions are shallowly embedded as Lean
functions: byte streams become lists of already-framed protocol messages or
explicit parameters holding what the daemon sends back, machine integers
become Nat, thrown exceptions become Except / explicit error results, and
side effects on the wire become explicit traces.  Logger output and the
bytes echoed to the daemon on a STDERR_READ request are external effects the
claims do not mention; they are dropped, the control flow that produces them
is kept.
-/

namespace NixRemote

/-- A daemon-reported error, built by processStderr from the STDERR_ERROR
payload: Error(status, error) in the C++ source. -/
structure DaemonError where
  status : Nat
  msg : String
deriving DecidableEq

/-- One logger field as decoded by readFields: tag 0 is a u64, tag 1 a
string; any other tag makes readFields throw.  `bad t` stands for a field
whose tag t is neither 0 nor 1. -/
inductive RawField where
  | int (n : Nat)
  | str (s : String)
  | bad (tag : Nat)
deriving DecidableEq

/-- One message of the interleaved stderr sub-protocol, as dispatched on the
u64 tag read at the top of the processStderr loop.  `unknown t` stands for a
tag that is none of the eight STDERR_* constants. -/
inductive StderrMsg where
  | write (s : String)
  | read (len : Nat)
  | error (msg : String) (status : Nat)
  | next (s : String)
  | startActivity (act lvl type : Nat) (s : String) (fields : List RawField) (parent : Nat)
  | stopActivity (act : Nat)
  | result (act type : Nat) (fields : List RawField)
  | last
  | unknown (tag : Nat)
deriving DecidableEq

/-- The exceptions processStderr itself throws (as opposed to the deferred
DaemonError it returns): no sink / no source when the daemon asks for one,
an unsupported readFields tag, an unknown message tag, or a read past the
end of the stream. -/
inductive ProtoError where
  | noSink
  | noSource
  | badFieldType (tag : Nat)
  | unknownTag (tag : Nat)
  | truncated
deriving DecidableEq

/-- First unsupported tag in a field list, if any: readFields throws exactly
when this is some. -/
def firstBadTag (fs : List RawField) : Option Nat :=
  fs.findSome? fun f =>
    match f with
    | .bad t => some t
    | _ => none

/-- RemoteStore::Connection::processStderr.  `sink` and `source` record
whether the optional Sink / Source arguments were passed (non-null).  The
input stream is the list of daemon messages still unread; the result on
normal return is the deferred exception pointer (none after STDERR_LAST,
some after STDERR_ERROR) together with the part of the stream the loop did
not consume. -/
def processStderr (sink source : Bool) :
    List StderrMsg → Except ProtoError (Option DaemonError × List StderrMsg)
  | [] => .error .truncated
  | m :: rest =>
    match m with
    | .write _ =>
        if sink then processStderr sink source rest else .error .noSink
    | .read _ =>
        if source then processStderr sink source rest else .error .noSource
    | .error emsg status => .ok (some ⟨status, emsg⟩, rest)
    | .next _ => processStderr sink source rest
    | .startActivity _ _ _ _ fields _ =>
        match firstBadTag fields with
        | some t => .error (.badFieldType t)
        | none => processStderr sink source rest
    | .stopActivity _ => processStderr sink source rest
    | .result _ _ fields =>
        match firstBadTag fields with
        | some t => .error (.badFieldType t)
        | none => processStderr sink source rest
    | .last => .ok (none, rest)
    | .unknown t => .error (.unknownTag t)

/-- A terminator of the processStderr loop: STDERR_LAST or STDERR_ERROR. -/
def isTerminal : StderrMsg → Bool
  | .last => true
  | .error _ _ => true
  | _ => false

/-- C1: whenever processStderr returns normally, the messages it consumed
are a prefix of the stream ending in exactly one terminal tag (one
STDERR_LAST or one STDERR_ERROR, with no terminal tag before it), the rest
of the stream is untouched, and the returned deferred exception is none on
LAST and the captured Error(status, msg) on ERROR. -/
theorem processStderr_consumes_one_terminator (sink source : Bool)
    (msgs rest : List StderrMsg) (res : Option DaemonError)
    (h : processStderr sink source msgs = .ok (res, rest)) :
    ∃ pre t, msgs = pre ++ t :: rest ∧
      (∀ m ∈ pre, isTerminal m = false) ∧ isTerminal t = true ∧
      ((t = .last ∧ res = none) ∨
       (∃ s st, t = .error s st ∧ res = some ⟨st, s⟩)) := by
  induction msgs with
  | nil => simp [processStderr] at h
  | cons m ms ih =>
    have step :
        isTerminal m = false →
        processStderr sink source ms = .ok (res, rest) →
        ∃ pre t, m :: ms = pre ++ t :: rest ∧
          (∀ x ∈ pre, isTerminal x = false) ∧ isTerminal t = true ∧
          ((t = .last ∧ res = none) ∨
           (∃ s st, t = .error s st ∧ res = some ⟨st, s⟩)) := by
      intro hm h2
      obtain ⟨pre, t, hsplit, hpre, ht, hcase⟩ := ih h2
      refine ⟨m :: pre, t, by simp [hsplit], ?_, ht, hcase⟩
      intro x hx
      rcases List.mem_cons.mp hx with hx | hx
      · rw [hx]
        exact hm
      · exact hpre x hx
    cases m with
    | write s =>
        by_cases hs : sink = true
        · subst hs
          simp only [processStderr, if_true] at h
          exact step rfl h
        · have : sink = false := by simpa using hs
          subst this
          simp [processStderr] at h
    | read l =>
        by_cases hs : source = true
        · subst hs
          simp only [processStderr, if_true] at h
          exact step rfl h
        · have : source = false := by simpa using hs
          subst this
          simp [processStderr] at h
    | error s st =>
        simp only [processStderr, Except.ok.injEq, Prod.mk.injEq] at h
        refine ⟨[], .error s st, ?_, by simp, rfl, .inr ⟨s, st, rfl, ?_⟩⟩
        · simp [h.2]
        · simp [← h.1]
    | next s =>
        simp only [processStderr] at h
        exact step rfl h
    | startActivity a b c d fields f =>
        cases hbt : firstBadTag fields with
        | some t0 => simp [processStderr, hbt] at h
        | none =>
            simp only [processStderr, hbt] at h
            exact step rfl h
    | stopActivity a =>
        simp only [processStderr] at h
        exact step rfl h
    | result a b fields =>
        cases hbt : firstBadTag fields with
        | some t0 => simp [processStderr, hbt] at h
        | none =>
            simp only [processStderr, hbt] at h
            exact step rfl h
    | last =>
        simp only [processStderr, Except.ok.injEq, Prod.mk.injEq] at h
        refine ⟨[], .last, ?_, by simp, rfl, .inl ⟨rfl, ?_⟩⟩
        · simp [h.2]
        · simp [← h.1]
    | unknown t0 => simp [processStderr] at h

/-- Witness for C1 on a concrete stream: a progress message followed by
STDERR_LAST is consumed up to and including the LAST tag, returning no
deferred error. -/
theorem processStderr_consumes_one_terminator_witness :
    ∃ pre t, ([StderrMsg.next "building", StderrMsg.last] : List StderrMsg)
        = pre ++ t :: ([] : List StderrMsg) ∧
      (∀ m ∈ pre, isTerminal m = false) ∧ isTerminal t = true ∧
      ((t = .last ∧ (none : Option DaemonError) = none) ∨
       (∃ s st, t = .error s st ∧ (none : Option DaemonError) = some ⟨st, s⟩)) :=
  processStderr_consumes_one_terminator true false
    [StderrMsg.next "building", StderrMsg.last] [] none rfl

/-- An exception escaping an operation through a lease: either one
processStderr itself threw, or a daemon-reported error that the lease
rethrew after recording it. -/
inductive OpError where
  | proto (e : ProtoError)
  | daemon (e : DaemonError)
deriving DecidableEq

/-- The destructor of ConnectionHandle: handle.markBad() is called exactly
when no daemon exception was recorded and uncaught exceptions are in
flight (std::uncaught_exceptions() is a count, nonzero meaning an exception
is propagating).  The returned Bool is whether markBad was called. -/
def connectionHandleMarksBad (daemonException : Bool) (uncaughtExceptions : Nat) : Bool :=
  !daemonException && uncaughtExceptions != 0

/-- ConnectionHandle::processStderr, applied to the result of the
connection-level call: a deferred daemon error sets daemonException to true
and is rethrown; an exception thrown by the connection-level call itself
propagates with the flag unchanged; otherwise nothing is thrown.  The result
is the new daemonException flag and the escaping exception, if any. -/
def handleProcessStderr (daemonException : Bool)
    (r : Except ProtoError (Option DaemonError)) : Bool × Option OpError :=
  match r with
  | .error p => (daemonException, some (.proto p))
  | .ok (some e) => (true, some (.daemon e))
  | .ok none => (daemonException, none)

/-- C2: the lease destructor marks the connection bad exactly when an
exception is propagating and daemonException is false; and after the lease
rethrows a daemon-reported ERROR (which sets daemonException), the
destructor does not mark the connection bad, whatever was in flight
before. -/
theorem connectionHandle_marksBad_iff (d : Bool) (n : Nat) (e : DaemonError)
    (r0 : Except ProtoError (Option DaemonError)) :
    (connectionHandleMarksBad d n = true ↔ (n ≠ 0 ∧ d = false)) ∧
    handleProcessStderr d (.ok (some e)) = (true, some (.daemon e)) ∧
    connectionHandleMarksBad (handleProcessStderr d (.ok (some e))).1 n = false ∧
    ((handleProcessStderr d r0).2 = none → (handleProcessStderr d r0).1 = d) := by
  refine ⟨?_, rfl, rfl, ?_⟩
  · cases d <;> simp [connectionHandleMarksBad]
  · intro h
    rcases r0 with p | o
    · rfl
    · rcases o with _ | e0
      · rfl
      · simp [handleProcessStderr] at h

/-- Witness for C2 at daemonException = false, one uncaught exception, a
concrete daemon error. -/
theorem connectionHandle_marksBad_iff_witness :
    (connectionHandleMarksBad false 1 = true ↔ ((1 : Nat) ≠ 0 ∧ false = false)) ∧
    handleProcessStderr false (.ok (some ⟨1, "boom"⟩)) = (true, some (.daemon ⟨1, "boom"⟩)) ∧
    connectionHandleMarksBad (handleProcessStderr false (.ok (some ⟨1, "boom"⟩))).1 1 = false :=
  ⟨(connectionHandle_marksBad_iff false 1 ⟨1, "boom"⟩ (.ok none)).1,
   (connectionHandle_marksBad_iff false 1 ⟨1, "boom"⟩ (.ok none)).2.1,
   (connectionHandle_marksBad_iff false 1 ⟨1, "boom"⟩ (.ok none)).2.2.1⟩

/-- Errors produced while making a new pooled connection.  The spec names
the sticky-failed error StoreUnreachable; in the source it is the Error
thrown by openConnectionWrapper with message "opening a connection to
remote store ... previously failed". -/
inductive StoreError where
  | storeUnreachable
  | openFailed
  | initFailed
deriving DecidableEq

/-- What one run of the pool connection factory produced: the value of the
sticky failed flag afterwards, the result, and whether any network work
(socket open / greeting) was attempted. -/
structure FactoryOutcome where
  failedAfter : Bool
  result : Except StoreError Unit
  touchedNetwork : Bool

/-- RemoteStore::openConnectionWrapper: if failed is already set, throw at
once without touching the network; otherwise run openConnection (modelled
by the oracle openOk) and on failure set failed before rethrowing. -/
def openConnectionWrapper (failed : Bool) (openOk : Bool) : FactoryOutcome :=
  if failed then ⟨true, .error .storeUnreachable, false⟩
  else if openOk then ⟨false, .ok (), true⟩
  else ⟨true, .error .openFailed, true⟩

/-- The connection factory passed to the Pool in the RemoteStore
constructor: openConnectionWrapper, then initConnection (modelled by the
oracle initOk) with failed set to true on any initConnection failure. -/
def connectionFactory (failed : Bool) (openOk initOk : Bool) : FactoryOutcome :=
  let w := openConnectionWrapper failed openOk
  match w.result with
  | .error e => ⟨w.failedAfter, .error e, w.touchedNetwork⟩
  | .ok () =>
      if initOk then ⟨w.failedAfter, .ok (), w.touchedNetwork⟩
      else ⟨true, .error .initFailed, w.touchedNetwork⟩

/-- A sequence of factory runs threading the sticky failed flag: each
element of the list gives the (openOk, initOk) oracles of one attempt. -/
def runFactoryAttempts (failed : Bool) :
    List (Bool × Bool) → Bool × List FactoryOutcome
  | [] => (failed, [])
  | (o, i) :: rest =>
      let out := connectionFactory failed o i
      let next := runFactoryAttempts out.failedAfter rest
      (next.1, out :: next.2)

/-- C3: the failed flag is sticky.  Starting from failed = false, one
factory run ends with failed = true exactly when it produced an error; and
once failed is true, every later attempt returns StoreUnreachable at once,
touches no network, and leaves failed true. -/
theorem connectionFactory_failed_sticky (o i : Bool) (attempts : List (Bool × Bool)) :
    ((connectionFactory false o i).failedAfter = true ↔
      ∃ e, (connectionFactory false o i).result = .error e) ∧
    connectionFactory true o i = ⟨true, .error .storeUnreachable, false⟩ ∧
    (runFactoryAttempts true attempts).1 = true ∧
    ∀ out ∈ (runFactoryAttempts true attempts).2,
      out = ⟨true, .error .storeUnreachable, false⟩ := by
  refine ⟨?_, by cases o <;> cases i <;> rfl, ?_⟩
  · cases o <;> cases i
    · exact ⟨fun _ => ⟨_, rfl⟩, fun _ => rfl⟩
    · exact ⟨fun _ => ⟨_, rfl⟩, fun _ => rfl⟩
    · exact ⟨fun _ => ⟨_, rfl⟩, fun _ => rfl⟩
    · exact ⟨fun h => Bool.noConfusion h, fun ⟨e, he⟩ => Except.noConfusion he⟩
  · induction attempts with
    | nil => exact ⟨rfl, fun out h => absurd h (List.not_mem_nil out)⟩
    | cons a rest ih =>
      obtain ⟨ha, hb⟩ := ih
      have hfac : connectionFactory true a.1 a.2 = ⟨true, .error .storeUnreachable, false⟩ := by
        cases a.1 <;> cases a.2 <;> rfl
      constructor
      · simpa [runFactoryAttempts, hfac] using ha
      · intro out hmem
        simp only [runFactoryAttempts, hfac, List.mem_cons] at hmem
        rcases hmem with h | h
        · exact h
        · exact hb out h

/-- Modelled from the spec: the constant the client sends first in the
greeting (worker-protocol.hh is not among the staged sources; the spec
fixes it only as a fixed 32-bit value, so the historical value is used). -/
def WORKER_MAGIC_1 : Nat := 0x6e697863

/-- Modelled from the spec: the constant the daemon must answer with in the
greeting (same caveat as WORKER_MAGIC_1). -/
def WORKER_MAGIC_2 : Nat := 0x6478696f

/-- Modelled from the spec: the protocol version is a 16-bit value, major
in the high byte and minor in the low byte, packed as u64; this extracts
the minor half. -/
def GET_PROTOCOL_MINOR (x : Nat) : Nat := x % 256

/-- Modelled from the spec: the major half of a protocol version (the next
8 bits above the minor). -/
def GET_PROTOCOL_MAJOR (x : Nat) : Nat := x / 256 % 256

/-- Modelled from the spec: the version the client advertises, major 1 and
minor 25 (the spec states the client major is 1 and the advertised minor is
at least 25). -/
def PROTOCOL_VERSION : Nat := 256 * 1 + 25

/-- The body of the try block in RemoteStore::initConnection, as the error
message thrown, if any: magic check, then major check, then minor check,
then the stderr drain (greetEx is the message of the exception the drain
produced, deferred or thrown, if any; it is rethrown here).  On success the
negotiated daemon version is recorded. -/
def greetingCore (magicReply daemonVersion : Nat) (greetEx : Option String) :
    Except String Nat :=
  if magicReply ≠ WORKER_MAGIC_2 then .error "protocol mismatch"
  else if GET_PROTOCOL_MAJOR daemonVersion ≠ GET_PROTOCOL_MAJOR PROTOCOL_VERSION then
    .error "Nix daemon protocol version not supported"
  else if GET_PROTOCOL_MINOR daemonVersion < 10 then
    .error "the Nix daemon version is too old"
  else
    match greetEx with
    | some e => .error e
    | none => .ok daemonVersion

/-- The message of the Error thrown by the catch block of
RemoteStore::initConnection, wrapping the inner error e. -/
def wrapGreetingError (uri e : String) : String :=
  "cannot open connection to remote store '" ++ uri ++ "': " ++ e

/-- RemoteStore::initConnection: any error escaping the greeting try block
is rewrapped with the store URI; setOptions runs after the catch, so its
errors (setOptionsEx) propagate unwrapped. -/
def initConnection (uri : String) (magicReply daemonVersion : Nat)
    (greetEx : Option String) (setOptionsEx : Option String) :
    Except String Nat :=
  match greetingCore magicReply daemonVersion greetEx with
  | .error e => .error (wrapGreetingError uri e)
  | .ok v =>
      match setOptionsEx with
      | some e => .error e
      | none => .ok v

/-- C4: the greeting rejects a wrong magic with a protocol-mismatch error,
a major-version mismatch with the unsupported-version error, a minor below
10 with the daemon-too-old error, and every greeting failure is wrapped as
"cannot open connection to remote store URI: inner message". -/
theorem initConnection_greeting (uri : String) (m v : Nat)
    (g so : Option String) :
    (m ≠ WORKER_MAGIC_2 →
      initConnection uri m v g so =
        .error (wrapGreetingError uri "protocol mismatch")) ∧
    (m = WORKER_MAGIC_2 →
      GET_PROTOCOL_MAJOR v ≠ GET_PROTOCOL_MAJOR PROTOCOL_VERSION →
      initConnection uri m v g so =
        .error (wrapGreetingError uri "Nix daemon protocol version not supported")) ∧
    (m = WORKER_MAGIC_2 →
      GET_PROTOCOL_MAJOR v = GET_PROTOCOL_MAJOR PROTOCOL_VERSION →
      GET_PROTOCOL_MINOR v < 10 →
      initConnection uri m v g so =
        .error (wrapGreetingError uri "the Nix daemon version is too old")) ∧
    (∀ e, greetingCore m v g = .error e →
      initConnection uri m v g so = .error (wrapGreetingError uri e)) := by
  refine ⟨?_, ?_, ?_, ?_⟩
  · intro hm
    simp [initConnection, greetingCore, hm]
  · intro hm hmaj
    simp [initConnection, greetingCore, hm, hmaj]
  · intro hm hmaj hmin
    simp [initConnection, greetingCore, hm, hmaj, hmin]
  · intro e he
    simp [initConnection, he]

/-- Witness for C4: a daemon that answers the wrong magic (0) makes
initConnection fail with the wrapped protocol-mismatch message. -/
theorem initConnection_greeting_witness :
    initConnection "daemon" 0 0 none none =
      .error "cannot open connection to remote store 'daemon': protocol mismatch" :=
  (initConnection_greeting "daemon" 0 0 none none).1 (by decide)

/-- Whether `needle` matches at the head of `hay`. -/
def listHasHead (needle hay : List Char) : Bool :=
  match needle, hay with
  | [], _ => true
  | _ :: _, [] => false
  | a :: ns, b :: hs => a == b && listHasHead ns hs

/-- Whether `needle` occurs contiguously anywhere in `hay`. -/
def listContains (needle : List Char) : List Char → Bool
  | [] => needle.isEmpty
  | b :: hs => listHasHead needle (b :: hs) || listContains needle hs

/-- std::string::find(needle) != npos, as used on error messages in
RemoteStore::queryPathInfoUncached. -/
def strContains (hay needle : String) : Bool :=
  listContains needle.toList hay.toList

/-- The decoded path-info record (ValidPathInfo of the source, with the
fields readValidPathInfo fills in; paths, hashes and content addresses stay
the strings read off the wire, parsing them is an external codec). -/
structure PathInfoRecord where
  deriver : Option String
  narHash : String
  references : List String
  registrationTime : Nat
  narSize : Nat
  ultimate : Bool
  sigs : List String
  ca : Option String
deriving DecidableEq

/-- The raw wire fields of one path-info response, in the order
RemoteStore::readValidPathInfo reads them; the last three are only on the
wire when minor is at least 16. -/
structure PathInfoWire where
  deriver : String
  narHash : String
  references : List String
  registrationTime : Nat
  narSize : Nat
  ultimate : Bool
  sigs : List String
  ca : String
deriving DecidableEq

/-- RemoteStore::readValidPathInfo: an empty deriver string decodes to no
deriver; ultimate, sigs and ca are read only when minor is at least 16 and
otherwise keep the ValidPathInfo defaults (false, empty, none). -/
def readValidPathInfo (minor : Nat) (w : PathInfoWire) : PathInfoRecord :=
  { deriver := if w.deriver = "" then none else some w.deriver
    narHash := w.narHash
    references := w.references
    registrationTime := w.registrationTime
    narSize := w.narSize
    ultimate := if 16 ≤ minor then w.ultimate else false
    sigs := if 16 ≤ minor then w.sigs else []
    ca := if 16 ≤ minor then (if w.ca = "" then none else some w.ca) else none }

/-- How one call of RemoteStore::queryPathInfoUncached ends: with the
decoded record, with an InvalidPath exception, or with some other error
propagating unchanged. -/
inductive QueryPathInfoOutcome where
  | info (r : PathInfoRecord)
  | invalidPath (msg : String)
  | otherError (msg : String)
deriving DecidableEq

/-- RemoteStore::queryPathInfoUncached.  stderrEx is the message of the
error the stderr drain rethrew, if any (the catch block turns it into
InvalidPath when it contains "is not valid"); when the drain was clean and
minor is at least 17 a validity u64 is read next and a zero bit raises
InvalidPath; otherwise the record is decoded and returned. -/
def queryPathInfoUncached (minor : Nat) (path : String)
    (stderrEx : Option String) (validBit : Bool) (w : PathInfoWire) :
    QueryPathInfoOutcome :=
  match stderrEx with
  | some e =>
      if strContains e "is not valid" then .invalidPath e else .otherError e
  | none =>
      if 17 ≤ minor then
        if !validBit then .invalidPath ("path '" ++ path ++ "' is not valid")
        else .info (readValidPathInfo minor w)
      else .info (readValidPathInfo minor w)

/-- C5: on minor at least 17 a clean drain followed by a zero validity bit
raises InvalidPath and a one bit returns the decoded record; on minor below
17 a daemon error whose message contains "is not valid" is converted to
InvalidPath, and a clean drain returns the decoded record. -/
theorem queryPathInfo_invalidPath (minor : Nat) (path e : String)
    (validBit : Bool) (w : PathInfoWire) :
    (17 ≤ minor →
      queryPathInfoUncached minor path none false w =
        .invalidPath ("path '" ++ path ++ "' is not valid")) ∧
    (17 ≤ minor →
      queryPathInfoUncached minor path none true w =
        .info (readValidPathInfo minor w)) ∧
    (minor < 17 → strContains e "is not valid" = true →
      queryPathInfoUncached minor path (some e) validBit w = .invalidPath e) ∧
    (minor < 17 → strContains e "is not valid" = false →
      queryPathInfoUncached minor path (some e) validBit w = .otherError e) ∧
    (minor < 17 →
      queryPathInfoUncached minor path none validBit w =
        .info (readValidPathInfo minor w)) := by
  refine ⟨fun h17 => ?_, fun h17 => ?_, fun _ hs => ?_, fun _ hs => ?_, fun hlt => ?_⟩
  · simp [queryPathInfoUncached, h17]
  · simp [queryPathInfoUncached, h17]
  · simp [queryPathInfoUncached, hs]
  · simp [queryPathInfoUncached, hs]
  · simp [queryPathInfoUncached, Nat.not_le.mpr hlt]

/-- Witness for C5: on a minor-16 daemon, a daemon-reported error whose
message contains "is not valid" becomes InvalidPath. -/
theorem queryPathInfo_invalidPath_witness :
    queryPathInfoUncached 16 "/nix/store/abc-foo"
        (some "path '/nix/store/abc-foo' is not valid") false
        ⟨"", "sha256:0000", [], 0, 0, false, [], ""⟩ =
      .invalidPath "path '/nix/store/abc-foo' is not valid" :=
  (queryPathInfo_invalidPath 16 "/nix/store/abc-foo"
      "path '/nix/store/abc-foo' is not valid" false
      ⟨"", "sha256:0000", [], 0, 0, false, [], ""⟩).2.2.1
    (by decide) (by decide)

/-- The socket path length validation of UDSRemoteStore::openConnection:
too-long paths are refused before connect, others proceed to connect.
sunPathSize is sizeof(sockaddr_un.sun_path), a platform constant (108 on
Linux). -/
def checkSocketPathLength (sunPathSize : Nat) (socketPath : String) :
    Except String Unit :=
  if socketPath.length + 1 ≥ sunPathSize then
    .error ("socket path '" ++ socketPath ++ "' is too long")
  else .ok ()

/-- C6 counterexample: with the Linux sun_path size of 108, a socket path
of length exactly 107 = sizeof(sun_path) - 1 is rejected as too long,
although the claim requires it to be accepted. -/
theorem socketPath_sunPathMinusOne_rejected :
    (String.mk (List.replicate 107 'a')).length = 108 - 1 ∧
    checkSocketPathLength 108 (String.mk (List.replicate 107 'a')) ≠ .ok () := by
  refine ⟨by decide, fun hc => ?_⟩
  have h2 : (Except.error
      ("socket path '" ++ String.mk (List.replicate 107 'a') ++ "' is too long") :
        Except String Unit) = .ok () := by
    rw [← hc]
    rfl
  exact Except.noConfusion h2

/-- C6 as amended: the check accepts a socket path of length at most
sizeof(sun_path) - 2 and rejects one of length sizeof(sun_path) - 1 or
more (in particular of length sizeof(sun_path) and more) with the too-long
error. -/
theorem socketPath_length_check (sunPathSize : Nat) (s : String) :
    (checkSocketPathLength sunPathSize s = .ok () ↔ s.length + 2 ≤ sunPathSize) ∧
    (checkSocketPathLength sunPathSize s =
        .error ("socket path '" ++ s ++ "' is too long") ↔
      sunPathSize ≤ s.length + 1) := by
  unfold checkSocketPathLength
  split
  next hge =>
    refine ⟨⟨fun hc => Except.noConfusion hc, fun hc => absurd hge (by omega)⟩,
            ⟨fun _ => by omega, fun _ => rfl⟩⟩
  next hlt =>
    refine ⟨⟨fun _ => by omega, fun _ => rfl⟩,
            ⟨fun hc => Except.noConfusion hc, fun hc => absurd hc (by omega)⟩⟩

/-- RemoteStore::isValidPathUncached: write wopIsValidPath and the path,
drain stderr, read a u64 as bool.  The daemon side is modelled from the
spec by a validity oracle giving the daemon answer for each path. -/
def isValidPath (valid : String → Bool) (p : String) : Bool := valid p

/-- Modelled from the spec: the daemon answer to wopQueryValidPaths is the
subset of the queried paths that are valid on the daemon (the daemon itself
is not among the staged sources). -/
def daemonQueryValidPaths (valid : String → Bool) (paths : List String) :
    List String :=
  paths.filter valid

/-- RemoteStore::queryValidPaths: on minor below 12 the client loops
isValidPath over the paths and collects those that answer true; otherwise
it sends the whole set and decodes the daemon answer. -/
def queryValidPaths (valid : String → Bool) (minor : Nat)
    (paths : List String) : List String :=
  if minor < 12 then
    paths.filter fun i => isValidPath valid i
  else
    daemonQueryValidPaths valid paths

/-- C7: for every path and minor version, isValidPath p holds exactly when
p is in queryValidPaths of the singleton set of p; and on minor below 12
queryValidPaths is the client-side isValidPath filter. -/
theorem isValidPath_iff_mem_queryValidPaths (valid : String → Bool)
    (minor : Nat) (p : String) (paths : List String) :
    (isValidPath valid p = true ↔ p ∈ queryValidPaths valid minor [p]) ∧
    (minor < 12 →
      queryValidPaths valid minor paths =
        paths.filter fun i => isValidPath valid i) := by
  constructor
  · have hq : queryValidPaths valid minor [p] = List.filter valid [p] := by
      unfold queryValidPaths daemonQueryValidPaths isValidPath
      split <;> rfl
    rw [hq]
    simp [List.mem_filter, isValidPath]
  · intro h
    unfold queryValidPaths
    rw [if_pos h]

/-- Witness for C7 on a minor-11 daemon with a concrete two-path oracle:
the valid path is a member of its singleton query, and the query is the
client-side filter. -/
theorem isValidPath_iff_mem_queryValidPaths_witness :
    ((isValidPath (fun s => s == "/nix/store/a") "/nix/store/a" = true ↔
      "/nix/store/a" ∈
        queryValidPaths (fun s => s == "/nix/store/a") 11 ["/nix/store/a"]) ∧
     queryValidPaths (fun s => s == "/nix/store/a") 11
         ["/nix/store/a", "/nix/store/b"] =
       List.filter (fun i => isValidPath (fun s => s == "/nix/store/a") i)
         ["/nix/store/a", "/nix/store/b"]) :=
  ⟨(isValidPath_iff_mem_queryValidPaths (fun s => s == "/nix/store/a") 11
      "/nix/store/a" ["/nix/store/a", "/nix/store/b"]).1,
   (isValidPath_iff_mem_queryValidPaths (fun s => s == "/nix/store/a") 11
      "/nix/store/a" ["/nix/store/a", "/nix/store/b"]).2 (by decide)⟩

/-- One value written to the request stream, at the granularity the claims
need: a u64, a framed string, a string list, or a path/content-address map
(content addresses already rendered to strings by the external codec). -/
inductive WireItem where
  | num (n : Nat)
  | str (s : String)
  | strs (ss : List String)
  | caMap (m : List (String × Option String))
deriving DecidableEq

/-- Modelled from the spec: the opcode of BuildPaths (the opcode enum lives
in worker-protocol.hh, which is not among the staged sources; the spec
fixes the table byte-for-byte, the historical value is used). -/
def wopBuildPaths : Nat := 9

/-- Modelled from the spec: the normal build mode, the first value of the
BuildMode enum (buildMode is transmitted as an integer). -/
def bmNormal : Nat := 0

/-- How RemoteStore::buildPaths can fail before draining stderr: the
assert on a daemon older than minor 13, or the client-side rejection of a
non-normal build mode on a daemon older than minor 15. -/
inductive BuildPathsError where
  | assertDaemonTooOld
  | unsupportedBuildMode
deriving DecidableEq

/-- RemoteStore::buildPaths: writes the opcode, asserts minor at least 13,
writes the derivation-path strings (their rendering p.to_string is an
external codec, the list ss is taken already rendered), then transmits the
build mode when minor is at least 15 and otherwise rejects a non-normal
build mode client-side.  The result is the request trace as written so far
together with the failure, if any. -/
def buildPaths (minor : Nat) (ss : List String) (buildMode : Nat) :
    List WireItem × Option BuildPathsError :=
  let t0 := [WireItem.num wopBuildPaths]
  if minor < 13 then (t0, some .assertDaemonTooOld)
  else
    let t1 := t0 ++ [WireItem.strs ss]
    if 15 ≤ minor then (t1 ++ [WireItem.num buildMode], none)
    else if buildMode ≠ bmNormal then (t1, some .unsupportedBuildMode)
    else (t1, none)

/-- C8: on minor below 13 buildPaths fails (the assert fires); on minor in
[13, 15) a non-normal build mode fails client-side with the request trace
ending right after the path list, so the build mode is never transmitted;
on minor at least 15 the build mode is transmitted directly after the path
list. -/
theorem buildPaths_version_gates (minor : Nat) (ss : List String) (mode : Nat) :
    (minor < 13 → (buildPaths minor ss mode).2 = some .assertDaemonTooOld) ∧
    (13 ≤ minor → minor < 15 → mode ≠ bmNormal →
      buildPaths minor ss mode =
        ([.num wopBuildPaths, .strs ss], some .unsupportedBuildMode)) ∧
    (15 ≤ minor →
      buildPaths minor ss mode =
        ([.num wopBuildPaths, .strs ss, .num mode], none)) := by
  refine ⟨fun h => ?_, fun h13 h15 hm => ?_, fun h15 => ?_⟩
  · unfold buildPaths
    rw [if_pos h]
  · unfold buildPaths
    rw [if_neg (by omega), if_neg (by omega), if_pos hm]
    rfl
  · unfold buildPaths
    rw [if_neg (by omega), if_pos h15]
    rfl

/-- Witness for C8: on a minor-14 daemon a check-mode build (mode 2) is
rejected client-side with nothing after the path list on the wire. -/
theorem buildPaths_version_gates_witness :
    buildPaths 14 ["/nix/store/x.drv!out"] 2 =
      ([.num wopBuildPaths, .strs ["/nix/store/x.drv!out"]],
       some .unsupportedBuildMode) :=
  (buildPaths_version_gates 14 ["/nix/store/x.drv!out"] 2).2.1
    (by decide) (by decide) (by decide)

/-- Modelled from the spec: the opcode of CollectGarbage (same caveat as
wopBuildPaths). -/
def wopCollectGarbage : Nat := 20

/-- The GC options transmitted by collectGarbage: action enum, paths to
delete, ignore-liveness flag, max freed bytes (the three trailing zeros of
the encoding are removed options). -/
structure GCOptions where
  action : Nat
  pathsToDelete : List String
  ignoreLiveness : Bool
  maxFreed : Nat
deriving DecidableEq

/-- The GC results decoded from the response: freed paths and bytes freed
(one more obsolete u64 is read and dropped). -/
structure GCResults where
  paths : List String
  bytesFreed : Nat
deriving DecidableEq

/-- How collectGarbage can fail: a daemon-reported error from the stderr
drain, or a response stream that ends before the results are decoded. -/
inductive GCError where
  | daemon (e : DaemonError)
  | truncatedResponse
deriving DecidableEq

/-- RemoteStore::collectGarbage: writes the request, drains stderr
(stderrEx is the daemon error the drain rethrew, if any), decodes the
results (resp is none when the response stream is truncated), and clears
the path-info cache only after a successful decode.  The result is the
request trace, the outcome and the path-info cache afterwards; the lock
around the cache is a concurrency detail outside this model. -/
def collectGarbage (opts : GCOptions) (cache : List (String × PathInfoRecord))
    (stderrEx : Option DaemonError) (resp : Option GCResults) :
    List WireItem × Except GCError GCResults × List (String × PathInfoRecord) :=
  let trace := [WireItem.num wopCollectGarbage, WireItem.num opts.action,
    WireItem.strs opts.pathsToDelete,
    WireItem.num (if opts.ignoreLiveness then 1 else 0),
    WireItem.num opts.maxFreed,
    WireItem.num 0, WireItem.num 0, WireItem.num 0]
  match stderrEx with
  | some e => (trace, .error (.daemon e), cache)
  | none =>
    match resp with
    | none => (trace, .error .truncatedResponse, cache)
    | some r => (trace, .ok r, [])

/-- C9: after a successful collectGarbage the path-info cache is empty, and
on either failure (daemon error during the drain, truncated response before
the results are decoded) the cache is left untouched. -/
theorem collectGarbage_clears_cache (opts : GCOptions)
    (cache : List (String × PathInfoRecord)) (e : DaemonError)
    (r : GCResults) (resp : Option GCResults) :
    (collectGarbage opts cache none (some r)).2 = (.ok r, []) ∧
    (collectGarbage opts cache (some e) resp).2 = (.error (.daemon e), cache) ∧
    (collectGarbage opts cache none none).2 = (.error .truncatedResponse, cache) :=
  ⟨rfl, rfl, rfl⟩

/-- Modelled from the spec: the opcode of the per-path
QuerySubstitutablePathInfo operation used on daemons older than minor 12
(same caveat as wopBuildPaths). -/
def wopQuerySubstitutablePathInfo : Nat := 21

/-- Modelled from the spec: the opcode of QuerySubstitutablePathInfos
(same caveat as wopBuildPaths). -/
def wopQuerySubstitutablePathInfos : Nat := 30

/-- A decoded substitutable-path-info record: optional deriver, references,
download size, nar size. -/
structure SubstitutablePathInfo where
  deriver : Option String
  references : List String
  downloadSize : Nat
  narSize : Nat
deriving DecidableEq

/-- The raw wire fields of one substitutable-path-info answer. -/
structure SubInfoWire where
  deriver : String
  references : List String
  downloadSize : Nat
  narSize : Nat
deriving DecidableEq

/-- Decoding of one substitutable-path-info answer: an empty deriver string
means no deriver. -/
def decodeSubInfo (w : SubInfoWire) : SubstitutablePathInfo :=
  ⟨if w.deriver = "" then none else some w.deriver,
   w.references, w.downloadSize, w.narSize⟩

/-- RemoteStore::querySubstitutablePathInfos.  sub is the daemon modelled
from the spec: the wire record it knows for a path, none when it has no
substituter for it.  An empty path-ca map returns at once; otherwise a
connection is leased and, on minor below 12, one round-trip per path is
made (reply 0 means skip), else one QuerySubstitutablePathInfos round-trip
whose request is a path set below minor 22 and the path-ca map from 22 on.
The result is the updated infos map, whether a connection was leased, and
the request trace. -/
def querySubstitutablePathInfos (minor : Nat)
    (sub : String → Option SubInfoWire)
    (pathsMap : List (String × Option String))
    (infos : List (String × SubstitutablePathInfo)) :
    List (String × SubstitutablePathInfo) × Bool × List WireItem :=
  if pathsMap.isEmpty then (infos, false, [])
  else if minor < 12 then
    (pathsMap.foldl (fun acc pc =>
        match sub pc.1 with
        | none => acc
        | some w => acc ++ [(pc.1, decodeSubInfo w)]) infos,
     true,
     pathsMap.foldl (fun tr pc =>
        tr ++ [WireItem.num wopQuerySubstitutablePathInfo, WireItem.str pc.1]) [])
  else
    (infos ++ (pathsMap.filterMap fun pc =>
        (sub pc.1).map fun w => (pc.1, decodeSubInfo w)),
     true,
     [WireItem.num wopQuerySubstitutablePathInfos,
      if minor < 22 then WireItem.strs (pathsMap.map fun pc => pc.1)
      else WireItem.caMap pathsMap])

/-- C10: called with an empty path-ca map, querySubstitutablePathInfos
returns at once with the infos map unchanged, no connection leased and
nothing written on the wire; with a non-empty map a connection is
leased. -/
theorem querySubstitutablePathInfos_empty (minor : Nat)
    (sub : String → Option SubInfoWire)
    (infos : List (String × SubstitutablePathInfo))
    (pm : List (String × Option String)) :
    querySubstitutablePathInfos minor sub [] infos = (infos, false, []) ∧
    (pm ≠ [] →
      (querySubstitutablePathInfos minor sub pm infos).2.1 = true) := by
  refine ⟨rfl, fun hne => ?_⟩
  unfold querySubstitutablePathInfos
  rw [if_neg (by simpa [List.isEmpty_iff] using hne)]
  split
  · rfl
  · rfl

/-- Witness for C10: an empty map makes no round-trip while a one-element
map leases a connection, on a minor-22 daemon with a daemon that knows no
substitutes. -/
theorem querySubstitutablePathInfos_empty_witness :
    querySubstitutablePathInfos 22 (fun _ => none) [] [] = ([], false, []) ∧
    (querySubstitutablePathInfos 22 (fun _ => none)
        [("/nix/store/a", none)] []).2.1 = true :=
  ⟨(querySubstitutablePathInfos_empty 22 (fun _ => none) []
      [("/nix/store/a", none)]).1,
   (querySubstitutablePathInfos_empty 22 (fun _ => none) []
      [("/nix/store/a", none)]).2 (by decide)⟩

end NixRemote
